import Mathlib

/-
Verification of the appointment-lifecycle backend (tch-backend).

The repository contains near-duplicate server variants.  Two of them carry
the engine logic the claims cite and are embedded here:

* Variant A — the Supabase-backed server (server.js, routes
  POST /book-appointment, POST /doctor-decline/:id, POST /doctor-set-time/:id,
  POST /payment-done/:id).  The store is an appointments table keyed by id;
  `saveAppointment` inserts, `updateAppointment` updates the rows matching id,
  `getAppointment` fetches by id.

* Variant C — the in-memory server (routes POST /book-appointment,
  POST /confirm-appointment/:id, POST /decline-appointment/:id,
  POST /verify-payment/:id, GET /consultation/:id).  The store is a Map
  keyed by id.

Modelling decisions, all mechanical:
* uuidv4 id generation is modelled by a fresh counter `nextId`; issued ids
  are exactly those below the counter.
* `Math.random().toString(36).slice(2, 10)` room suffixes and environment
  values (BASE_URL) are passed in as explicit string parameters.
* JavaScript field absence (undefined) is `Option.none` for string/number
  fields and `false` for the boolean `paymentDone` (undefined is falsy and
  only its truthiness is ever read).
* `sendEmail` / `transporter.sendMail` outcomes are a Bool parameter; the
  list of recipients an operation attempted to notify is returned alongside
  the store, so ordering of persistence versus notification is visible.
-/

namespace TCH

/-- An appointment record: the persisted fields of the appointments table /
the in-memory Map values (field names follow the in-memory variant and the
migration script column mapping). -/
structure Appointment where
  id : Nat
  name : String
  email : String
  phone : String
  date : String
  time : String
  consultType : String
  confirmed : Bool
  declined : Bool
  finalTime : Option String
  declineReason : Option String
  amount : Option Nat
  jitsiRoom : Option String
  videoLink : Option String
  paymentLink : Option String
  paymentDone : Bool
  deriving Repr, DecidableEq

/-- The appointment store (Supabase table / in-memory Map) plus the id
generator state: uuidv4 is modelled as a fresh counter. -/
structure Store where
  appts : List Appointment
  nextId : Nat
  deriving Repr, DecidableEq

/-- The empty store. -/
def store0 : Store := { appts := [], nextId := 0 }

/-- HTTP-level outcome of an engine operation, keeping only what the claims
talk about. -/
inductive Resp where
  | notFound
  | badRequest
  | ok
  | booked (id : Nat)
  | serverError
  | alreadyConfirmed
  | alreadyDeclined
  deriving Repr, DecidableEq

/-- Result of GET /consultation/:id. -/
inductive Access where
  | notFound
  | denied
  | grantedVideo (link : String)
  | grantedInPerson (date : String) (finalTime : Option String)
  deriving Repr, DecidableEq

/-- getAppointment: fetch by id (supabase .eq id .maybeSingle / Map.get). -/
def getAppointment (s : Store) (id : Nat) : Option Appointment :=
  s.appts.find? (fun a => a.id == id)

/-- updateAppointment: apply an update to every row matching id
(supabase .update .eq id / Map.set of the mutated object). -/
def updateAppointment (s : Store) (id : Nat) (f : Appointment → Appointment) :
    Store :=
  { s with appts := s.appts.map (fun a => if a.id == id then f a else a) }

/-- The fixed operator notification address in server.js. -/
def doctorEmail : String := "tch231017@gmail.com"

/-- JITSI room namespace constant in server.js. -/
def jitsiNS : String := "sidhahealth"

/-- JavaScript String.prototype.toLowerCase, embedded as a character-wise
lowercase map (a kernel-computable rendering of String.toLower). -/
def lowerCase (s : String) : String := String.mk (s.data.map Char.toLower)

/-- The record object both book routes build: confirmed and declined start
false, every other lifecycle field absent (undefined in JS). -/
def newAppt (nm em ph dt tm ct : String) (n : Nat) : Appointment :=
  { id := n, name := nm, email := em, phone := ph, date := dt, time := tm,
    consultType := ct, confirmed := false, declined := false,
    finalTime := none, declineReason := none, amount := none,
    jitsiRoom := none, videoLink := none, paymentLink := none,
    paymentDone := false }

/-- Variant A POST /book-appointment.  Validates only that email and
consultType are truthy; inserts the record, then emails the operator.
`saveOk` models whether the supabase insert succeeds (it throws into the
catch block otherwise); `emailOk` models the sendEmail outcome — sendEmail
catches and logs its own failures, so it never throws and the response does
not depend on it.  Returns (store, attempted notification recipients,
response). -/
def bookA (nm em ph dt tm ct : String) (saveOk emailOk : Bool) (s : Store) :
    Store × List String × Resp :=
  if em = "" ∨ ct = "" then (s, [], .badRequest)
  else if saveOk then
    let a : Appointment := newAppt nm em ph dt tm ct s.nextId
    let s' : Store := { appts := a :: s.appts, nextId := s.nextId + 1 }
    (s', [doctorEmail], .booked s.nextId)
  else (s, [], .serverError)

/-- Variant A POST /doctor-decline/:id.  Fetches the record; other than
existence there is NO state guard: it unconditionally sets declined and
decline_reason, then emails the patient. -/
def doctorDeclineA (id : Nat) (reason : String) (s : Store) :
    Store × List String × Resp :=
  match getAppointment s id with
  | none => (s, [], .notFound)
  | some appt =>
    (updateAppointment s id
      (fun a => { a with declined := true, declineReason := some reason }),
     [appt.email], .ok)

/-- Variant A POST /doctor-set-time/:id (the confirm operation).  Fetches
the record; other than existence there is NO state guard.  Sets
confirmed, final_time, amount = 500, payment_done = !isOnline, and when the
consult type lower-cases to online also jitsi_room, video_link and
payment_link.  `suffix` is the random room suffix, `baseURL` the configured
base URL. -/
def doctorSetTimeA (id : Nat) (final_time suffix baseURL : String)
    (s : Store) : Store × List String × Resp :=
  match getAppointment s id with
  | none => (s, [], .notFound)
  | some appt =>
    let isOnline : Bool := lowerCase appt.consultType == "online"
    let room : String := jitsiNS ++ "-" ++ suffix
    let f : Appointment → Appointment := fun a =>
      let b := { a with confirmed := true, finalTime := some final_time,
                        amount := some 500, paymentDone := !isOnline }
      if isOnline then
        { b with jitsiRoom := some room,
                 videoLink := some ("https://meet.jit.si/" ++ room),
                 paymentLink :=
                   some (baseURL ++ "/payment/" ++ toString id) }
      else b
    (updateAppointment s id f, [appt.email, doctorEmail], .ok)

/-- Variant A POST /payment-done/:id.  Fetches the record; if it exists,
unconditionally sets payment_done = true — no check of confirmed or of the
consult type. -/
def paymentDoneA (id : Nat) (s : Store) : Store × Resp :=
  match getAppointment s id with
  | none => (s, .notFound)
  | some _ =>
    (updateAppointment s id (fun a => { a with paymentDone := true }), .ok)

/-- Variant C POST /book-appointment.  Destructures age and amount from the
body but never stores them (`amountReq` is the ignored client-supplied
amount).  The Map entry is created BEFORE the try block; the operator email
is sent inside it, and a sendMail failure reaches the catch block and makes
the route answer 500 — while the record stays in the Map. -/
def bookC (nm em ph dt tm ct : String) (amountReq : Option Nat)
    (emailOk : Bool) (s : Store) : Store × List String × Resp :=
  if em = "" ∨ ct = "" then (s, [], .badRequest)
  else
    let a : Appointment := newAppt nm em ph dt tm ct s.nextId
    let s' : Store := { appts := a :: s.appts, nextId := s.nextId + 1 }
    if emailOk then (s', [doctorEmail], .booked s.nextId)
    else (s', [doctorEmail], .serverError)

/-- Variant C POST /confirm-appointment/:id.  Guards against an already
declined record (early return, no mutation) but NOT against an already
confirmed one.  Sets confirmed, finalTime, paymentDone = false (for BOTH
consult types), amount = 500, and when online also jitsiRoom, videoLink,
paymentLink.  The in-memory variant builds its links from localhost with
the configured port; `baseURL` stands for that origin. -/
def confirmC (id : Nat) (finalTime suffix baseURL : String) (s : Store) :
    Store × List String × Resp :=
  match getAppointment s id with
  | none => (s, [], .notFound)
  | some appt =>
    if appt.declined then (s, [], .alreadyDeclined)
    else
      let isOnline : Bool := lowerCase appt.consultType == "online"
      let base := { appt with confirmed := true, finalTime := some finalTime,
                              paymentDone := false }
      let appt' :=
        if isOnline then
          let room := jitsiNS ++ "-" ++ suffix
          { base with jitsiRoom := some room,
                      videoLink := some ("https://meet.jit.si/" ++ room),
                      paymentLink :=
                        some (baseURL ++ "/payment/" ++ toString id),
                      amount := some 500 }
        else { base with amount := some 500 }
      (updateAppointment s id (fun _ => appt'),
       [appt.email, doctorEmail], .ok)

/-- Variant C POST /decline-appointment/:id.  Guards against an already
confirmed record (early return, no mutation) but NOT against an already
declined one.  Sets declined and declineReason, defaulting the reason when
the submitted one is empty (falsy in JS). -/
def declineC (id : Nat) (reason : String) (s : Store) :
    Store × List String × Resp :=
  match getAppointment s id with
  | none => (s, [], .notFound)
  | some appt =>
    if appt.confirmed then (s, [], .alreadyConfirmed)
    else
      let r := if reason = "" then "No reason provided." else reason
      (updateAppointment s id
        (fun _ => { appt with declined := true, declineReason := some r }),
       [appt.email], .ok)

/-- Variant C POST /verify-payment/:id.  If the record exists,
unconditionally sets paymentDone = true — no check of confirmed or of the
consult type, no email. -/
def verifyPaymentC (id : Nat) (s : Store) : Store × Resp :=
  match getAppointment s id with
  | none => (s, .notFound)
  | some appt =>
    (updateAppointment s id (fun _ => { appt with paymentDone := true }),
     .ok)

/-- Variant C GET /consultation/:id.  Pure read: denied while paymentDone is
false; otherwise redirect to videoLink when it is set and truthy (JS
truthiness: the empty string would be falsy), else the in-person page with
date and finalTime.  The store is returned unchanged: the handler performs
no write. -/
def consultationC (id : Nat) (s : Store) : Store × Access :=
  match getAppointment s id with
  | none => (s, .notFound)
  | some appt =>
    if !appt.paymentDone then (s, .denied)
    else
      match appt.videoLink with
      | some l => if l = "" then (s, .grantedInPerson appt.date appt.finalTime)
                  else (s, .grantedVideo l)
      | none => (s, .grantedInPerson appt.date appt.finalTime)

/-- All ids already issued by the generator are below the counter. -/
def freshIds (s : Store) : Prop := ∀ a ∈ s.appts, a.id < s.nextId

/-- A demonstration store: one freshly booked online appointment (id 0). -/
def demoBooked : Store :=
  (bookA "pat" "a@x.com" "99" "2024-06-01" "10:00" "online" true true
    store0).1

/-- demoBooked after the doctor confirms it via POST /doctor-set-time/0. -/
def demoConfirmed : Store :=
  (doctorSetTimeA 0 "10:30 AM" "abcd1234" "http://localhost:5000"
    demoBooked).1

/-- demoConfirmed after a later POST /doctor-decline/0. -/
def demoDeclinedAfterConfirmed : Store × List String × Resp :=
  doctorDeclineA 0 "fully booked" demoConfirmed

/- ------------------------------------------------------------------
Helper lemmas about the store.
------------------------------------------------------------------ -/

theorem find?_map_update (l : List Appointment) (id : Nat)
    (f : Appointment → Appointment)
    (hf : ∀ a : Appointment, (a.id == id) = true → ((f a).id == id) = true) :
    (l.map (fun a => if a.id == id then f a else a)).find?
        (fun a => a.id == id)
      = (l.find? (fun a => a.id == id)).map f := by
  induction l with
  | nil => rfl
  | cons a l ih =>
    simp only [List.map_cons]
    by_cases h : (a.id == id) = true
    · rw [if_pos h,
        List.find?_cons_of_pos (p := fun (b : Appointment) => b.id == id) _ (hf a h),
        List.find?_cons_of_pos (p := fun (b : Appointment) => b.id == id) _ h]
      rfl
    · rw [if_neg h,
        List.find?_cons_of_neg (p := fun (b : Appointment) => b.id == id) _ h,
        List.find?_cons_of_neg (p := fun (b : Appointment) => b.id == id) _ h]
      exact ih

theorem getAppointment_update (s : Store) (id : Nat)
    (f : Appointment → Appointment)
    (hf : ∀ a : Appointment, (a.id == id) = true → ((f a).id == id) = true) :
    getAppointment (updateAppointment s id f) id
      = (getAppointment s id).map f := by
  simpa [getAppointment, updateAppointment] using
    find?_map_update s.appts id f hf

theorem getAppointment_id (s : Store) (id : Nat) (a : Appointment)
    (h : getAppointment s id = some a) : (a.id == id) = true := by
  have h' : s.appts.find? (fun b => b.id == id) = some a := h
  exact List.find?_some (p := fun (b : Appointment) => b.id == id) h'

theorem getAppointment_after (s : Store) (id : Nat) (a : Appointment)
    (f : Appointment → Appointment) (h : getAppointment s id = some a)
    (hf : ∀ b : Appointment, (b.id == id) = true → ((f b).id == id) = true) :
    getAppointment (updateAppointment s id f) id = some (f a) := by
  rw [getAppointment_update s id f hf, h]
  rfl

theorem paymentUpdate_idem (s : Store) (id : Nat) :
    updateAppointment (updateAppointment s id
        (fun a => { a with paymentDone := true })) id
        (fun a => { a with paymentDone := true })
      = updateAppointment s id (fun a => { a with paymentDone := true }) := by
  simp only [updateAppointment, List.map_map]
  congr 1
  apply List.map_congr_left
  intro x _
  by_cases hx : (x.id == id) = true
  · simp [Function.comp, hx]
  · simp [Function.comp, hx]

theorem updateConst_idem (s : Store) (id : Nat) (r : Appointment) :
    updateAppointment (updateAppointment s id (fun _ => r)) id (fun _ => r)
      = updateAppointment s id (fun _ => r) := by
  simp only [updateAppointment, List.map_map]
  congr 1
  apply List.map_congr_left
  intro x _
  by_cases hx : (x.id == id) = true
  · simp [Function.comp, hx]
  · simp [Function.comp, hx]

theorem append_ne_empty (x y : String) (hx : x ≠ "") : (x ++ y) ≠ "" := by
  intro h
  apply hx
  have hd := congrArg String.data h
  simp only [String.data_append] at hd
  rcases List.append_eq_nil.mp hd with ⟨h1, h2⟩
  cases x with
  | mk d => simp_all

end TCH

namespace TCH

/- ------------------------------------------------------------------
Claim theorems.
------------------------------------------------------------------ -/

/-- Claim C1 (code bug): the claim states that at most one of confirmed and
declined is ever true along any operation sequence.  The code violates it:
variant A exposes POST /doctor-decline/:id with no state guard, so booking
an appointment (id 0), confirming it via POST /doctor-set-time/0, and then
declining it via POST /doctor-decline/0 succeeds and leaves BOTH flags
true on the stored record.  This theorem evaluates that failing sequence. -/
theorem C1_flags_mutual_exclusion_violated :
    demoDeclinedAfterConfirmed.2.2 = Resp.ok ∧
      (getAppointment demoDeclinedAfterConfirmed.1 0).map
        (fun a => (a.confirmed, a.declined)) = some (true, true) := by
  decide

/-- Claim C2 (code bug): the claim states that Decline after a successful
Confirm on the same id must fail with IllegalState and leave already-set
fields unchanged.  In variant A the POST /doctor-decline/:id handler has no
state guard: after booking and confirming id 0, the decline call answers
success (not a conflict) and overwrites the record, setting declined and
writing a declineReason where none was set. -/
theorem C2_decline_after_confirm_succeeds :
    (getAppointment demoConfirmed 0).map
        (fun a => (a.confirmed, a.declined, a.declineReason))
        = some (true, false, none) ∧
      demoDeclinedAfterConfirmed.2.2 = Resp.ok ∧
      (getAppointment demoDeclinedAfterConfirmed.1 0).map
        (fun a => (a.declined, a.declineReason))
        = some (true, some "fully booked") := by
  decide

/-- Claim C3 counterexample: the claim states CompletePayment fails, or is
a no-op, on an existing unconfirmed record.  On a freshly booked (hence
unconfirmed, unpaid) record, POST /payment-done/0 instead answers ok and
flips paymentDone from false to true — a state change, not a failure. -/
theorem C3_counterexample_unconfirmed_payment :
    (getAppointment demoBooked 0).map
        (fun a => (a.confirmed, a.paymentDone)) = some (false, false) ∧
      (paymentDoneA 0 demoBooked).2 = Resp.ok ∧
      (getAppointment (paymentDoneA 0 demoBooked).1 0).map
        (fun a => a.paymentDone) = some true := by
  decide

/-- Claim C3 as amended: for EVERY existing record — confirmed or not,
online or offline — both CompletePayment routes, POST /payment-done/:id
and POST /verify-payment/:id, answer ok and set paymentDone to true, and
each is idempotent: running it a second time leaves the store exactly as
after the first run.  In particular on a confirmed online record each
idempotently sets paymentDone = true, as the claim says; on unconfirmed or
offline records neither fails. -/
theorem C3_amended_completePayment (s : Store) (id : Nat) (a : Appointment)
    (h : getAppointment s id = some a) :
    (paymentDoneA id s).2 = Resp.ok ∧
      getAppointment (paymentDoneA id s).1 id
        = some { a with paymentDone := true } ∧
      (paymentDoneA id (paymentDoneA id s).1).1 = (paymentDoneA id s).1 ∧
      (verifyPaymentC id s).2 = Resp.ok ∧
      getAppointment (verifyPaymentC id s).1 id
        = some { a with paymentDone := true } ∧
      (verifyPaymentC id (verifyPaymentC id s).1).1
        = (verifyPaymentC id s).1 := by
  have hget : getAppointment
      (updateAppointment s id (fun b => { b with paymentDone := true })) id
      = some { a with paymentDone := true } :=
    getAppointment_after s id a _ h (fun b hb => hb)
  have hget2 : getAppointment
      (updateAppointment s id (fun _ => { a with paymentDone := true })) id
      = some { a with paymentDone := true } :=
    getAppointment_after s id a _ h
      (fun b hb => getAppointment_id s id a h)
  refine ⟨?_, ?_, ?_, ?_, ?_, ?_⟩
  · simp [paymentDoneA, h]
  · simpa [paymentDoneA, h] using hget
  · simp [paymentDoneA, h, hget, paymentUpdate_idem]
  · simp [verifyPaymentC, h]
  · simpa [verifyPaymentC, h] using hget2
  · simp only [verifyPaymentC, h, hget2]
    exact updateConst_idem s id { a with paymentDone := true }

theorem C3_amended_completePayment_witness :
    (paymentDoneA 0 demoBooked).2 = Resp.ok ∧
      getAppointment (paymentDoneA 0 demoBooked).1 0
        = some { newAppt "pat" "a@x.com" "99" "2024-06-01" "10:00" "online" 0
                   with paymentDone := true } ∧
      (paymentDoneA 0 (paymentDoneA 0 demoBooked).1).1
        = (paymentDoneA 0 demoBooked).1 ∧
      (verifyPaymentC 0 demoBooked).2 = Resp.ok ∧
      getAppointment (verifyPaymentC 0 demoBooked).1 0
        = some { newAppt "pat" "a@x.com" "99" "2024-06-01" "10:00" "online" 0
                   with paymentDone := true } ∧
      (verifyPaymentC 0 (verifyPaymentC 0 demoBooked).1).1
        = (verifyPaymentC 0 demoBooked).1 :=
  C3_amended_completePayment demoBooked 0
    (newAppt "pat" "a@x.com" "99" "2024-06-01" "10:00" "online" 0)
    (by decide)

/-- Claim C4 counterexample: the claim states Book rejects a consultType
outside {online, offline} (case-insensitive).  Both book routes only check
truthiness of email and consultType: a booking with consultType
"telepathy" is accepted, the record is created with that consult type, and
its id is returned. -/
theorem C4_counterexample_unrecognized_type :
    (bookA "pat" "a@x.com" "99" "2024-06-01" "10:00" "telepathy" true true
        store0).2.2 = Resp.booked 0 ∧
      (getAppointment (bookA "pat" "a@x.com" "99" "2024-06-01" "10:00"
          "telepathy" true true store0).1 0).map (fun a => a.consultType)
        = some "telepathy" ∧
      (bookC "pat" "a@x.com" "99" "2024-06-01" "10:00" "telepathy" none true
        store0).2.2 = Resp.booked 0 := by
  decide

/-- Claim C4 as amended: Book (both variants) rejects with a 400 validation
error, creating no record and sending no notification, exactly when email
or consultType is empty; EVERY non-empty consultType is accepted whatever
its value — there is no membership check against {online, offline} — and
a record carrying exactly that consultType is created, with the fresh id
returned by variant A (variant C returns it when the notification goes
through; its record is persisted regardless, and its response is never a
validation rejection). -/
theorem C4_amended_book_validation (nm em ph dt tm ct : String)
    (saveOk emailOk : Bool) (o : Option Nat) (s : Store) :
    ((em = "" ∨ ct = "") →
      bookA nm em ph dt tm ct saveOk emailOk s
          = (s, [], Resp.badRequest) ∧
        bookC nm em ph dt tm ct o emailOk s = (s, [], Resp.badRequest)) ∧
    (em ≠ "" → ct ≠ "" →
      (bookA nm em ph dt tm ct true emailOk s).2.2
          = Resp.booked s.nextId ∧
        getAppointment (bookA nm em ph dt tm ct true emailOk s).1 s.nextId
          = some (newAppt nm em ph dt tm ct s.nextId) ∧
        (bookC nm em ph dt tm ct o emailOk s).2.2 ≠ Resp.badRequest ∧
        getAppointment (bookC nm em ph dt tm ct o emailOk s).1 s.nextId
          = some (newAppt nm em ph dt tm ct s.nextId)) := by
  constructor
  · intro h
    constructor
    · simp [bookA, h]
    · simp [bookC, h]
  · intro hem hct
    have hcond : ¬ (em = "" ∨ ct = "") := by
      rintro (hh | hh)
      · exact hem hh
      · exact hct hh
    refine ⟨?_, ?_, ?_, ?_⟩
    · simp [bookA, hcond]
    · simp [bookA, hcond, getAppointment, newAppt]
    · cases emailOk <;> simp [bookC, hcond]
    · cases emailOk <;> simp [bookC, hcond, getAppointment, newAppt]

theorem C4_amended_book_validation_witness :
    (bookA "pat" "" "99" "2024-06-01" "10:00" "online" true true store0
        = (store0, [], Resp.badRequest) ∧
      bookC "pat" "" "99" "2024-06-01" "10:00" "online" none true store0
        = (store0, [], Resp.badRequest)) ∧
    ((bookA "pat" "a@x.com" "99" "2024-06-01" "10:00" "telepathy" true true
          store0).2.2 = Resp.booked store0.nextId ∧
      getAppointment (bookA "pat" "a@x.com" "99" "2024-06-01" "10:00"
          "telepathy" true true store0).1 store0.nextId
        = some (newAppt "pat" "a@x.com" "99" "2024-06-01" "10:00"
            "telepathy" store0.nextId) ∧
      (bookC "pat" "a@x.com" "99" "2024-06-01" "10:00" "telepathy" none
          true store0).2.2 ≠ Resp.badRequest ∧
      getAppointment (bookC "pat" "a@x.com" "99" "2024-06-01" "10:00"
          "telepathy" none true store0).1 store0.nextId
        = some (newAppt "pat" "a@x.com" "99" "2024-06-01" "10:00"
            "telepathy" store0.nextId)) :=
  ⟨(C4_amended_book_validation "pat" "" "99" "2024-06-01" "10:00" "online"
      true true none store0).1 (Or.inl rfl),
    (C4_amended_book_validation "pat" "a@x.com" "99" "2024-06-01" "10:00"
      "telepathy" true true none store0).2 (by decide) (by decide)⟩

end TCH

namespace TCH

theorem append_ne_empty_right (x y : String) (hy : y ≠ "") :
    (x ++ y) ≠ "" := by
  intro h
  apply hy
  have hd := congrArg String.data h
  simp only [String.data_append] at hd
  rcases List.append_eq_nil.mp hd with ⟨h1, h2⟩
  cases y with
  | mk d => simp_all

/-- Claim C5: a valid Book call (variant A, insert succeeding) creates
exactly one record — the store becomes that record consed onto the old
rows — with confirmed = false, declined = false, every optional lifecycle
field unset, the submitted contact fields, and a freshly generated id that
differs from every previously issued id (the id is the generator state,
never a client input), and the response returns that id. -/
theorem C5_book_fresh_record (nm em ph dt tm ct : String) (emailOk : Bool)
    (s : Store) (hem : em ≠ "") (hct : ct ≠ "") (hfr : freshIds s) :
    ∃ a : Appointment,
      bookA nm em ph dt tm ct true emailOk s
        = ({ appts := a :: s.appts, nextId := s.nextId + 1 },
           [doctorEmail], Resp.booked a.id) ∧
      getAppointment (bookA nm em ph dt tm ct true emailOk s).1 a.id
        = some a ∧
      a.confirmed = false ∧ a.declined = false ∧ a.finalTime = none ∧
      a.declineReason = none ∧ a.amount = none ∧ a.jitsiRoom = none ∧
      a.videoLink = none ∧ a.paymentLink = none ∧ a.paymentDone = false ∧
      a.name = nm ∧ a.email = em ∧ a.phone = ph ∧ a.date = dt ∧
      a.time = tm ∧ a.consultType = ct ∧
      (∀ b ∈ s.appts, b.id ≠ a.id) ∧
      freshIds (bookA nm em ph dt tm ct true emailOk s).1 := by
  have hcond : ¬ (em = "" ∨ ct = "") := by
    rintro (hh | hh)
    · exact hem hh
    · exact hct hh
  have hbook : bookA nm em ph dt tm ct true emailOk s
      = ({ appts := newAppt nm em ph dt tm ct s.nextId :: s.appts,
           nextId := s.nextId + 1 }, [doctorEmail],
         Resp.booked s.nextId) := by
    simp [bookA, hcond]
  refine ⟨newAppt nm em ph dt tm ct s.nextId, hbook, ?_, rfl, rfl, rfl,
    rfl, rfl, rfl, rfl, rfl, rfl, rfl, rfl, rfl, rfl, rfl, rfl, ?_, ?_⟩
  · rw [hbook]
    simp [getAppointment, newAppt]
  · intro b hb
    have hlt := hfr b hb
    simp only [newAppt]
    omega
  · rw [hbook]
    intro b hb
    simp only [List.mem_cons] at hb
    rcases hb with hb | hb
    · subst hb
      simp [newAppt]
    · have hlt := hfr b hb
      show b.id < s.nextId + 1
      omega

theorem C5_book_fresh_record_witness :
    ∃ a : Appointment,
      bookA "pat" "a@x.com" "99" "2024-06-01" "10:00" "online" true true
          store0
        = ({ appts := a :: store0.appts, nextId := store0.nextId + 1 },
           [doctorEmail], Resp.booked a.id) ∧
      getAppointment (bookA "pat" "a@x.com" "99" "2024-06-01" "10:00"
          "online" true true store0).1 a.id = some a ∧
      a.confirmed = false ∧ a.declined = false ∧ a.finalTime = none ∧
      a.declineReason = none ∧ a.amount = none ∧ a.jitsiRoom = none ∧
      a.videoLink = none ∧ a.paymentLink = none ∧ a.paymentDone = false ∧
      a.name = "pat" ∧ a.email = "a@x.com" ∧ a.phone = "99" ∧
      a.date = "2024-06-01" ∧ a.time = "10:00" ∧ a.consultType = "online" ∧
      (∀ b ∈ store0.appts, b.id ≠ a.id) ∧
      freshIds (bookA "pat" "a@x.com" "99" "2024-06-01" "10:00" "online"
          true true store0).1 :=
  C5_book_fresh_record "pat" "a@x.com" "99" "2024-06-01" "10:00" "online"
    true store0 (by decide) (by decide) (by intro b hb; cases hb)

end TCH

namespace TCH

/-- Claim C6: confirming a record whose consult type lower-cases to
"online" — via variant A POST /doctor-set-time/:id and via the in-memory
POST /confirm-appointment/:id (the latter on a not-yet-declined record,
the precondition of a successful confirm there) — answers ok and leaves
the record confirmed with the submitted final time, the fixed fee of 500
(neither handler takes a client amount input — the fee is the literal
constant 500, and the in-memory book route discards the amount the client
submits), a non-empty videoLink, a non-empty paymentLink, and
paymentDone = false. -/
theorem C6_online_confirm (id : Nat) (ft suffix baseURL : String)
    (s : Store) (a : Appointment) (h : getAppointment s id = some a)
    (hon : lowerCase a.consultType = "online") (hnd : a.declined = false) :
    ((doctorSetTimeA id ft suffix baseURL s).2.2 = Resp.ok ∧
      ∃ b : Appointment,
        getAppointment (doctorSetTimeA id ft suffix baseURL s).1 id
          = some b ∧
        b.confirmed = true ∧ b.finalTime = some ft ∧ b.amount = some 500 ∧
        (∃ v, b.videoLink = some v ∧ v ≠ "") ∧
        (∃ pl, b.paymentLink = some pl ∧ pl ≠ "") ∧
        b.paymentDone = false) ∧
    ((confirmC id ft suffix baseURL s).2.2 = Resp.ok ∧
      ∃ c : Appointment,
        getAppointment (confirmC id ft suffix baseURL s).1 id = some c ∧
        c.confirmed = true ∧ c.finalTime = some ft ∧ c.amount = some 500 ∧
        (∃ v, c.videoLink = some v ∧ v ≠ "") ∧
        (∃ pl, c.paymentLink = some pl ∧ pl ≠ "") ∧
        c.paymentDone = false) := by
  have hbe : (lowerCase a.consultType == "online") = true := by
    simp [hon]
  constructor
  · constructor
    · simp [doctorSetTimeA, h]
    · simp only [doctorSetTimeA, h, hbe, if_true, Bool.not_true]
      refine ⟨_, getAppointment_after s id a _ h (fun b hb => ?_), ?_, ?_,
        ?_, ?_, ?_, ?_⟩
      · simpa [hbe] using hb
      · simp [hbe]
      · simp [hbe]
      · simp [hbe]
      · exact ⟨"https://meet.jit.si/" ++ (jitsiNS ++ "-" ++ suffix),
          by simp [hbe], append_ne_empty _ _ (by decide)⟩
      · exact ⟨baseURL ++ "/payment/" ++ toString id, by simp [hbe],
          append_ne_empty _ _ (append_ne_empty_right _ _ (by decide))⟩
      · simp [hbe]
  · constructor
    · simp [confirmC, h, hnd]
    · simp only [confirmC, h, hnd, Bool.false_eq_true, if_false]
      refine ⟨_, getAppointment_after s id a _ h
        (fun b hb => by simpa [hbe] using getAppointment_id s id a h),
        ?_, ?_, ?_, ?_, ?_, ?_⟩
      · simp [hbe]
      · simp [hbe]
      · simp [hbe]
      · exact ⟨"https://meet.jit.si/" ++ (jitsiNS ++ "-" ++ suffix),
          by simp [hbe], append_ne_empty _ _ (by decide)⟩
      · exact ⟨baseURL ++ "/payment/" ++ toString id, by simp [hbe],
          append_ne_empty _ _ (append_ne_empty_right _ _ (by decide))⟩
      · simp [hbe]

end TCH

namespace TCH

theorem C6_online_confirm_witness :
    ((doctorSetTimeA 0 "10:30 AM" "abcd1234" "http://localhost:5000"
        demoBooked).2.2 = Resp.ok ∧
      ∃ b : Appointment,
        getAppointment (doctorSetTimeA 0 "10:30 AM" "abcd1234"
            "http://localhost:5000" demoBooked).1 0 = some b ∧
        b.confirmed = true ∧ b.finalTime = some "10:30 AM" ∧
        b.amount = some 500 ∧
        (∃ v, b.videoLink = some v ∧ v ≠ "") ∧
        (∃ pl, b.paymentLink = some pl ∧ pl ≠ "") ∧
        b.paymentDone = false) ∧
    ((confirmC 0 "10:30 AM" "abcd1234" "http://localhost:5000"
        demoBooked).2.2 = Resp.ok ∧
      ∃ c : Appointment,
        getAppointment (confirmC 0 "10:30 AM" "abcd1234"
            "http://localhost:5000" demoBooked).1 0 = some c ∧
        c.confirmed = true ∧ c.finalTime = some "10:30 AM" ∧
        c.amount = some 500 ∧
        (∃ v, c.videoLink = some v ∧ v ≠ "") ∧
        (∃ pl, c.paymentLink = some pl ∧ pl ≠ "") ∧
        c.paymentDone = false) :=
  C6_online_confirm 0 "10:30 AM" "abcd1234" "http://localhost:5000"
    demoBooked (newAppt "pat" "a@x.com" "99" "2024-06-01" "10:00" "online" 0)
    (by decide) (by decide) (by decide)

/-- A store holding one freshly booked OFFLINE appointment (id 0), made by
the in-memory book route. -/
def demoOfflineBookedC : Store :=
  (bookC "pat" "a@x.com" "99" "2024-06-01" "10:00" "offline" none true
    store0).1

/-- demoOfflineBookedC after the in-memory confirm route runs on id 0. -/
def demoOfflineConfirmedC : Store × List String × Resp :=
  confirmC 0 "3 PM" "abcd1234" "http://localhost:5000" demoOfflineBookedC

/-- Claim C7 counterexample: the claim states that after a successful
Confirm of an offline record, paymentDone = true immediately.  The
in-memory POST /confirm-appointment/:id (cited by the claim) instead sets
paymentDone = false for offline consults too: after booking an offline
appointment and confirming it there, the record is confirmed but
paymentDone is false (and, as the claim correctly says, no video or
payment fields were set). -/
theorem C7_counterexample_offline_payment_pending :
    demoOfflineConfirmedC.2.2 = Resp.ok ∧
      (getAppointment demoOfflineConfirmedC.1 0).map
        (fun a => (a.confirmed, a.paymentDone, a.videoLink, a.jitsiRoom,
          a.paymentLink)) = some (true, false, none, none, none) := by
  decide

/-- Claim C7 as amended: a successful Confirm of a record whose consult
type does not lower-case to "online" never touches videoLink, jitsiRoom
(videoRoom) or paymentLink in either confirm variant; the Supabase
doctor-set-time variant sets paymentDone = true immediately, but the
in-memory confirm-appointment variant sets paymentDone = false (payment
still pending). -/
theorem C7_amended_offline_confirm (id : Nat) (ft suffix baseURL : String)
    (s : Store) (a : Appointment) (h : getAppointment s id = some a)
    (hoff : lowerCase a.consultType ≠ "online") (hnd : a.declined = false) :
    ((doctorSetTimeA id ft suffix baseURL s).2.2 = Resp.ok ∧
      ∃ b : Appointment,
        getAppointment (doctorSetTimeA id ft suffix baseURL s).1 id
          = some b ∧
        b.videoLink = a.videoLink ∧ b.jitsiRoom = a.jitsiRoom ∧
        b.paymentLink = a.paymentLink ∧ b.confirmed = true ∧
        b.finalTime = some ft ∧ b.amount = some 500 ∧
        b.paymentDone = true) ∧
    ((confirmC id ft suffix baseURL s).2.2 = Resp.ok ∧
      ∃ c : Appointment,
        getAppointment (confirmC id ft suffix baseURL s).1 id = some c ∧
        c.videoLink = a.videoLink ∧ c.jitsiRoom = a.jitsiRoom ∧
        c.paymentLink = a.paymentLink ∧ c.confirmed = true ∧
        c.finalTime = some ft ∧ c.amount = some 500 ∧
        c.paymentDone = false) := by
  have hbe : (lowerCase a.consultType == "online") = false := by
    simp [hoff]
  constructor
  · constructor
    · simp [doctorSetTimeA, h]
    · simp only [doctorSetTimeA, h]
      refine ⟨_, getAppointment_after s id a _ h
        (fun b hb => by simpa [hbe] using hb), ?_, ?_, ?_, ?_, ?_, ?_, ?_⟩
      all_goals simp [hbe]
  · constructor
    · simp [confirmC, h, hnd]
    · simp only [confirmC, h, hnd, Bool.false_eq_true, if_false]
      refine ⟨_, getAppointment_after s id a _ h
        (fun b hb => by simpa [hbe] using getAppointment_id s id a h),
        ?_, ?_, ?_, ?_, ?_, ?_, ?_⟩
      all_goals simp [hbe]

theorem C7_amended_offline_confirm_witness :
    ((doctorSetTimeA 0 "3 PM" "abcd1234" "http://localhost:5000"
        demoOfflineBookedC).2.2 = Resp.ok ∧
      ∃ b : Appointment,
        getAppointment (doctorSetTimeA 0 "3 PM" "abcd1234"
            "http://localhost:5000" demoOfflineBookedC).1 0 = some b ∧
        b.videoLink = none ∧ b.jitsiRoom = none ∧ b.paymentLink = none ∧
        b.confirmed = true ∧ b.finalTime = some "3 PM" ∧
        b.amount = some 500 ∧ b.paymentDone = true) ∧
    ((confirmC 0 "3 PM" "abcd1234" "http://localhost:5000"
        demoOfflineBookedC).2.2 = Resp.ok ∧
      ∃ c : Appointment,
        getAppointment (confirmC 0 "3 PM" "abcd1234"
            "http://localhost:5000" demoOfflineBookedC).1 0 = some c ∧
        c.videoLink = none ∧ c.jitsiRoom = none ∧ c.paymentLink = none ∧
        c.confirmed = true ∧ c.finalTime = some "3 PM" ∧
        c.amount = some 500 ∧ c.paymentDone = false) :=
  C7_amended_offline_confirm 0 "3 PM" "abcd1234" "http://localhost:5000"
    demoOfflineBookedC
    (newAppt "pat" "a@x.com" "99" "2024-06-01" "10:00" "offline" 0)
    (by decide) (by decide) (by decide)

end TCH

namespace TCH

/-- demoBooked (online, id 0) confirmed through the in-memory confirm
route. -/
def demoOnlineConfirmedC : Store :=
  (confirmC 0 "10:30 AM" "abcd1234" "http://localhost:5000" demoBooked).1

/-- demoOnlineConfirmedC after POST /verify-payment/0. -/
def demoOnlinePaidC : Store := (verifyPaymentC 0 demoOnlineConfirmedC).1

/-- Claim C8: GET /consultation/:id never writes to the store, denies
access whenever paymentDone is false regardless of consult type, grants
access with the stored videoLink for a paid record holding one (the link a
confirmed online record stores is non-empty), and grants access with the
date and final time for a paid record without one (the offline case). -/
theorem C8_consultation_access (id : Nat) (s : Store) (a : Appointment)
    (h : getAppointment s id = some a) :
    (consultationC id s).1 = s ∧
      (a.paymentDone = false → (consultationC id s).2 = Access.denied) ∧
      (∀ l, a.paymentDone = true → a.videoLink = some l → l ≠ "" →
        (consultationC id s).2 = Access.grantedVideo l) ∧
      (a.paymentDone = true → a.videoLink = none →
        (consultationC id s).2
          = Access.grantedInPerson a.date a.finalTime) := by
  refine ⟨?_, ?_, ?_, ?_⟩
  · simp only [consultationC, h]
    cases hpd : a.paymentDone with
    | false => simp
    | true =>
      cases hvl : a.videoLink with
      | none => simp
      | some l => by_cases hl : l = "" <;> simp [hl]
  · intro hpd
    simp [consultationC, h, hpd]
  · intro l hpd hvl hl
    simp [consultationC, h, hpd, hvl, hl]
  · intro hpd hvl
    simp [consultationC, h, hpd, hvl]

/-- The record stored in demoOnlinePaidC under id 0. -/
def demoOnlinePaidRec : Appointment :=
  { (newAppt "pat" "a@x.com" "99" "2024-06-01" "10:00" "online" 0) with
    confirmed := true, finalTime := some "10:30 AM",
    jitsiRoom := some "sidhahealth-abcd1234",
    videoLink := some "https://meet.jit.si/sidhahealth-abcd1234",
    paymentLink := some "http://localhost:5000/payment/0",
    amount := some 500, paymentDone := true }

theorem C8_consultation_access_witness :
    (consultationC 0 demoOnlinePaidC).1 = demoOnlinePaidC ∧
      (demoOnlinePaidRec.paymentDone = false →
        (consultationC 0 demoOnlinePaidC).2 = Access.denied) ∧
      (∀ l, demoOnlinePaidRec.paymentDone = true →
        demoOnlinePaidRec.videoLink = some l → l ≠ "" →
        (consultationC 0 demoOnlinePaidC).2 = Access.grantedVideo l) ∧
      (demoOnlinePaidRec.paymentDone = true →
        demoOnlinePaidRec.videoLink = none →
        (consultationC 0 demoOnlinePaidC).2
          = Access.grantedInPerson demoOnlinePaidRec.date
              demoOnlinePaidRec.finalTime) :=
  C8_consultation_access 0 demoOnlinePaidC demoOnlinePaidRec (by decide)

end TCH

namespace TCH

/-- Claim C9 counterexample: the claim states a notification failure never
makes Book report failure to the caller.  In the in-memory variant the
book route persists the Map entry and then sends the operator email inside
its try block; when sendMail fails the route answers 500 — even though the
record is persisted (and stays persisted). -/
theorem C9_counterexample_email_failure_500 :
    (bookC "pat" "a@x.com" "99" "2024-06-01" "10:00" "online" none false
        store0).2.2 = Resp.serverError ∧
      (getAppointment (bookC "pat" "a@x.com" "99" "2024-06-01" "10:00"
          "online" none false store0).1 0).isSome = true := by
  decide

/-- Claim C9 as amended: in both book variants the record is persisted
before the notification is attempted and a notification failure never
rolls it back.  In the Supabase variant the whole outcome is independent
of the sendEmail result (sendEmail swallows its failures), no notification
is attempted when the insert itself fails, and a successful insert always
answers with the new id.  In the in-memory variant the stored state is
likewise independent of the sendMail result, but a sendMail failure makes
the route answer 500 to the caller. -/
theorem C9_amended_persist_before_notify (nm em ph dt tm ct : String)
    (saveOk emailOk : Bool) (o : Option Nat) (s : Store)
    (hem : em ≠ "") (hct : ct ≠ "") :
    (bookA nm em ph dt tm ct saveOk emailOk s
        = bookA nm em ph dt tm ct saveOk true s) ∧
      (saveOk = false →
        bookA nm em ph dt tm ct saveOk emailOk s
          = (s, [], Resp.serverError)) ∧
      (saveOk = true →
        (bookA nm em ph dt tm ct saveOk emailOk s).2.2
            = Resp.booked s.nextId ∧
          (getAppointment (bookA nm em ph dt tm ct saveOk emailOk s).1
              s.nextId).isSome = true) ∧
      ((bookC nm em ph dt tm ct o false s).1
          = (bookC nm em ph dt tm ct o true s).1) ∧
      ((bookC nm em ph dt tm ct o false s).2.2 = Resp.serverError) := by
  have hcond : ¬ (em = "" ∨ ct = "") := by
    rintro (hh | hh)
    · exact hem hh
    · exact hct hh
  refine ⟨rfl, ?_, ?_, ?_, ?_⟩
  · intro hs
    subst hs
    simp [bookA, hcond]
  · intro hs
    subst hs
    constructor
    · simp [bookA, hcond]
    · simp [bookA, hcond, getAppointment, newAppt]
  · simp [bookC, hcond]
  · simp [bookC, hcond]

theorem C9_amended_persist_before_notify_witness :
    ("a@x.com" : String) ≠ "" ∧ ("online" : String) ≠ "" ∧
      ((bookA "pat" "a@x.com" "99" "2024-06-01" "10:00" "online" true false
          store0
          = bookA "pat" "a@x.com" "99" "2024-06-01" "10:00" "online" true
            true store0) ∧
        (true = false →
          bookA "pat" "a@x.com" "99" "2024-06-01" "10:00" "online" true
            false store0 = (store0, [], Resp.serverError)) ∧
        (true = true →
          (bookA "pat" "a@x.com" "99" "2024-06-01" "10:00" "online" true
              false store0).2.2 = Resp.booked store0.nextId ∧
            (getAppointment (bookA "pat" "a@x.com" "99" "2024-06-01"
                "10:00" "online" true false store0).1
              store0.nextId).isSome = true) ∧
        ((bookC "pat" "a@x.com" "99" "2024-06-01" "10:00" "online" none
            false store0).1
          = (bookC "pat" "a@x.com" "99" "2024-06-01" "10:00" "online" none
            true store0).1) ∧
        ((bookC "pat" "a@x.com" "99" "2024-06-01" "10:00" "online" none
            false store0).2.2 = Resp.serverError)) :=
  ⟨by decide, by decide,
    C9_amended_persist_before_notify "pat" "a@x.com" "99" "2024-06-01"
      "10:00" "online" true false none store0 (by decide) (by decide)⟩

/-- Claim C10: both CompletePayment routes (Supabase POST /payment-done/:id
and in-memory POST /verify-payment/:id) change only paymentDone on the
target record: every other persisted field keeps its previous value. -/
theorem C10_payment_frame (id : Nat) (s : Store) (a : Appointment)
    (h : getAppointment s id = some a) :
    (∃ b : Appointment,
      getAppointment (paymentDoneA id s).1 id = some b ∧
      b.id = a.id ∧ b.name = a.name ∧ b.email = a.email ∧
      b.phone = a.phone ∧ b.date = a.date ∧ b.time = a.time ∧
      b.consultType = a.consultType ∧ b.confirmed = a.confirmed ∧
      b.declined = a.declined ∧ b.finalTime = a.finalTime ∧
      b.declineReason = a.declineReason ∧ b.amount = a.amount ∧
      b.jitsiRoom = a.jitsiRoom ∧ b.videoLink = a.videoLink ∧
      b.paymentLink = a.paymentLink ∧ b.paymentDone = true) ∧
    (∃ c : Appointment,
      getAppointment (verifyPaymentC id s).1 id = some c ∧
      c.id = a.id ∧ c.name = a.name ∧ c.email = a.email ∧
      c.phone = a.phone ∧ c.date = a.date ∧ c.time = a.time ∧
      c.consultType = a.consultType ∧ c.confirmed = a.confirmed ∧
      c.declined = a.declined ∧ c.finalTime = a.finalTime ∧
      c.declineReason = a.declineReason ∧ c.amount = a.amount ∧
      c.jitsiRoom = a.jitsiRoom ∧ c.videoLink = a.videoLink ∧
      c.paymentLink = a.paymentLink ∧ c.paymentDone = true) := by
  constructor
  · refine ⟨{ a with paymentDone := true }, ?_, rfl, rfl, rfl, rfl, rfl,
      rfl, rfl, rfl, rfl, rfl, rfl, rfl, rfl, rfl, rfl, rfl⟩
    simp only [paymentDoneA, h]
    exact getAppointment_after s id a _ h (fun b hb => hb)
  · refine ⟨{ a with paymentDone := true }, ?_, rfl, rfl, rfl, rfl, rfl,
      rfl, rfl, rfl, rfl, rfl, rfl, rfl, rfl, rfl, rfl, rfl⟩
    simp only [verifyPaymentC, h]
    exact getAppointment_after s id a _ h
      (fun b hb => getAppointment_id s id a h)

theorem C10_payment_frame_witness :
    (∃ b : Appointment,
      getAppointment (paymentDoneA 0 demoBooked).1 0 = some b ∧
      b.id = 0 ∧ b.name = "pat" ∧ b.email = "a@x.com" ∧
      b.phone = "99" ∧ b.date = "2024-06-01" ∧ b.time = "10:00" ∧
      b.consultType = "online" ∧ b.confirmed = false ∧
      b.declined = false ∧ b.finalTime = none ∧
      b.declineReason = none ∧ b.amount = none ∧
      b.jitsiRoom = none ∧ b.videoLink = none ∧
      b.paymentLink = none ∧ b.paymentDone = true) ∧
    (∃ c : Appointment,
      getAppointment (verifyPaymentC 0 demoBooked).1 0 = some c ∧
      c.id = 0 ∧ c.name = "pat" ∧ c.email = "a@x.com" ∧
      c.phone = "99" ∧ c.date = "2024-06-01" ∧ c.time = "10:00" ∧
      c.consultType = "online" ∧ c.confirmed = false ∧
      c.declined = false ∧ c.finalTime = none ∧
      c.declineReason = none ∧ c.amount = none ∧
      c.jitsiRoom = none ∧ c.videoLink = none ∧
      c.paymentLink = none ∧ c.paymentDone = true) :=
  C10_payment_frame 0 demoBooked
    (newAppt "pat" "a@x.com" "99" "2024-06-01" "10:00" "online" 0)
    (by decide)

end TCH
